import Mathlib

/-!
Verification of the basiliskLLM conversation core: the conversation data
model (src/basilisk/conversation.py), the image attachment model
(src/basilisk/image_file.py) and the provider-adapter protocol
(src/basilisk/provider_engine/base_engine.py, anthropic_engine.py,
ollama_engine.py), shallowly embedded in Lean.

Python exceptions are modelled with Except; mutation of the Python objects
is modelled by explicit state passing (each operation returns the result
together with the updated object).  External effects (the filesystem, the
HTTP transport, the image helpers from basilisk.image_helper, which is not
part of the analysed sources) are parameters of the embedding, collected in
an Env record.
-/

/-- The Python exception classes raised by the analysed sources.  Every raise
site in the sources constructs one of these with a message string; the
indexError constructor stands for the argument-free list-index failures. -/
inductive PyError where
  | typeError (msg : String)
  | valueError (msg : String)
  | notImplementedError (msg : String)
  | indexError
deriving DecidableEq

/-- Python s.split(sep, 1) for a one-character separator: the part before the
first separator, and the part after it when the separator occurs. -/
def splitOnceL (sep : Char) : List Char → List Char × Option (List Char)
  | [] => ([], none)
  | c :: rest =>
    if c = sep then ([], some rest)
    else
      let p := splitOnceL sep rest
      (c :: p.1, p.2)

/-- Python str.lower on the character list of a string. -/
def lowerL (l : List Char) : List Char := l.map Char.toLower

/-- Python str.startswith (case sensitive). -/
def startsWithPy (pre s : String) : Bool := List.isPrefixOf pre.data s.data

/-- Python regex whitespace class. -/
def isPySpace (c : Char) : Bool :=
  c = ' ' || c = '\t' || c = '\n' || c = '\r' || c = Char.ofNat 11 || c = Char.ofNat 12

/-- The character class of URL_PATTERN in image_file.py:
[a-zA-Z] | [0-9] | [$-_@.&+] | [!*\(\),] | percent escapes.  The range $-_
covers the code points 0x24 to 0x5F, which subsumes the digits, the
uppercase letters and every other listed character except the lowercase
letters and the exclamation mark. -/
def urlClassChar (c : Char) : Bool :=
  let n := c.toNat
  decide ((97 ≤ n ∧ n ≤ 122) ∨ (36 ≤ n ∧ n ≤ 95) ∨ n = 33)

/-- Case-insensitive literal-prefix match (re.IGNORECASE); pat is given in
lowercase; returns the remaining characters on success. -/
def ciPrefix : List Char → List Char → Option (List Char)
  | [], rest => some rest
  | _ :: _, [] => none
  | p :: ps, c :: cs => if Char.toLower c = p then ciPrefix ps cs else none

/-- re.match of URL_PATTERN from image_file.py:
(https?://(class)+|data:image/\S+) with IGNORECASE, anchored at the start of
the string and allowing trailing unmatched input. -/
def reMatchUrlPattern (s : String) : Bool :=
  let l := s.data
  let afterScheme : List Char → Bool := fun rest =>
    match rest with
    | c :: _ => urlClassChar c
    | [] => false
  (match ciPrefix (("http://").data) l with
   | some rest => afterScheme rest
   | none => false)
  || (match ciPrefix (("https://").data) l with
      | some rest => afterScheme rest
      | none => false)
  || (match ciPrefix (("data:image/").data) l with
      | some rest =>
        match rest with
        | c :: _ => !(isPySpace c)
        | [] => false
      | none => false)

/-- Python str.replace(pat, rep) for a one-character pattern: each character
equal to pat is replaced by rep. -/
def pyReplaceChar (pat : Char) (rep : List Char) (s : List Char) : List Char :=
  s.flatMap fun c => if c = pat then rep else [c]

/-- How Python renders a mime value inside an f-string: None prints as the
four-character word. -/
def mimeToStr : Option String → String
  | some m => m
  | none => "None"

/-- MessageRoleEnum from conversation.py. -/
inductive MessageRoleEnum where
  | assistant
  | user
  | system
deriving DecidableEq

/-- The .value attribute of MessageRoleEnum. -/
def MessageRoleEnum.value : MessageRoleEnum → String
  | .assistant => "assistant"
  | .user => "user"
  | .system => "system"

/-- ImageFileTypes from image_file.py. -/
inductive ImageFileTypes where
  | UNKNOWN
  | IMAGE_LOCAL
  | IMAGE_URL
deriving DecidableEq

/-- The state of an ImageFile instance from image_file.py: the constructor
fields plus the caches created by the functools decorators (typeCache for
the cached type property, mimeCache for the cached mime_type property; a
cached mime value may itself be Python None, hence the nested Option). -/
structure ImageFile where
  _location : String
  _name : Option String
  _description : Option String
  _size : Int
  _dimensions : Option (Nat × Nat)
  _mime_type : Option String
  _data : Option (List Nat)
  typeCache : Option ImageFileTypes
  mimeCache : Option (Option String)
deriving DecidableEq

/-- The universe of Python values passed around by the analysed sources:
strings, the pydantic content-part models, ImageFile instances, lists,
integers and None.  It is the value space used for message content and for
dynamically typed arguments. -/
inductive PyObj where
  | str (s : String)
  | textPart (text : String)
  | imageUrlPart (url : String)
  | imageFile (f : ImageFile)
  | pyList (items : List PyObj)
  | pyInt (n : Int)
  | noneVal

/-- Python isinstance(x, str) on the modelled value universe. -/
def isStrObj : PyObj → Bool
  | .str _ => true
  | _ => false

/-- Message from conversation.py: role plus content. -/
structure Message where
  role : MessageRoleEnum
  content : PyObj

/-- The content annotation of Message in conversation.py is
list[TextMessageContent | ImageUrlMessageContent] | str | Any.  Validation
of this union accepts a list of content parts, accepts a string, and — via
the trailing Any member — accepts every other value as well. -/
def contentUnionAccepts (v : PyObj) : Bool :=
  (match v with
   | .pyList items =>
     items.all fun i =>
       match i with
       | .textPart _ => true
       | .imageUrlPart _ => true
       | _ => false
   | _ => false)
  || isStrObj v
  || true

/-- Constructing a Message: pydantic validates the content against the union
annotation and keeps the value when some member accepts it. -/
def mkMessage (role : MessageRoleEnum) (content : PyObj) : Option Message :=
  if contentUnionAccepts content then some ⟨role, content⟩ else none

/-- Modelled from the spec: ProviderAIModel (basilisk/provider_ai_model.py is
not among the analysed sources).  Section 3 describes the Model Descriptor
as id, display name, description, context window, max output tokens, vision
flag and temperature limits; floats are modelled as rationals. -/
structure ProviderAIModel where
  id : String
  name : Option String
  description : Option String
  context_window : Nat
  max_output_tokens : Nat
  vision : Bool
  max_temperature : Rat
deriving DecidableEq

/-- MessageBlock from conversation.py (floats as rationals, datetimes as
natural-number timestamps, the audio dict as an association list). -/
structure MessageBlock where
  request : Message
  response : Option Message
  model : ProviderAIModel
  temperature : Rat
  max_tokens : Int
  top_p : Rat
  modalities : Option (List String)
  audio : Option (List (String × String))
  stream : Bool
  created_at : Nat
  updated_at : Nat

/-- Conversation from conversation.py. -/
structure Conversation where
  system : Option Message
  messages : List MessageBlock
  title : Option String

/-- The result of httpx.get as consumed by ImageFile.load: status code, the
content-type header when present, and the body bytes. -/
structure HttpResponse where
  status : Nat
  contentType : Option String
  content : List Nat
deriving DecidableEq

/-- The external world of the analysed sources, passed as an explicit
parameter: os.path.exists, open().read(), httpx.get, and the helpers of
basilisk.image_helper (get_image_dimensions, encode_image, and the
resize_image-then-encode_image composite used by get_url), which are outside
the analysed sources. -/
structure Env where
  pathExists : String → Bool
  readFile : String → List Nat
  httpGet : String → HttpResponse
  getDims : List Nat → Option (Nat × Nat)
  encodeImage : String → String
  encodeResized : String → Option Nat → Option Nat → Option Nat → String
  mimeGuess : String → Option String

/-- ImageFile.__init__ from image_file.py: a TypeError when the location is
not a string, otherwise the instance with the given fields, _data None and
no cached property computed. -/
def mkImageFile (location : PyObj) (name description : Option String)
    (size : Int) (dimensions : Option (Nat × Nat)) (mime_type : Option String) :
    Except PyError ImageFile :=
  match location with
  | .str s =>
    .ok { _location := s, _name := name, _description := description,
          _size := size, _dimensions := dimensions, _mime_type := mime_type,
          _data := none, typeCache := none, mimeCache := none }
  | _ => .error (.typeError ("path must be a string"))

/-- ImageFile(location) with the default arguments of __init__
(name=None, description=None, size=-1, dimensions=None, mime_type=None). -/
def ImageFile.ofLocationDefaults (location : PyObj) : Except PyError ImageFile :=
  mkImageFile location none none (-1) none none

/-- The cached type property of ImageFile: local when the path exists, URL
when the location matches URL_PATTERN, unknown otherwise; the computed value
is cached on the instance. -/
def ImageFile.pyType (env : Env) (f : ImageFile) : ImageFileTypes × ImageFile :=
  match f.typeCache with
  | some t => (t, f)
  | none =>
    let t :=
      if env.pathExists f._location then ImageFileTypes.IMAGE_LOCAL
      else if reMatchUrlPattern f._location then ImageFileTypes.IMAGE_URL
      else ImageFileTypes.UNKNOWN
    (t, { f with typeCache := some t })

/-- The tail of the IMAGE_URL branch of ImageFile.load: after the http block
the source tests the data:image/ prefix (decoding the inline payload and
recording size, dimensions and data), and then unconditionally raises
ValueError("Invalid image URL") — there is no return statement on this
path.  Location strings are encoded to bytes code point by code point,
faithful for the ASCII payloads involved.  A data URL without a comma hits
the [1] index of split(",", 1) and raises IndexError. -/
def ImageFile.loadUrlTail (env : Env) (f : ImageFile) :
    Except PyError (List Nat) × ImageFile :=
  if startsWithPy ("data:image/") f._location then
    match (splitOnceL ',' f._location.data).2 with
    | none => (.error .indexError, f)
    | some payload =>
      let bs := payload.map Char.toNat
      (.error (.valueError ("Invalid image URL")),
       { f with _size := (bs.length : Int), _dimensions := env.getDims bs,
                _data := some bs })
  else (.error (.valueError ("Invalid image URL")), f)

/-- ImageFile.load from image_file.py.  Local images are read from the
filesystem and returned.  For an https/http location the source fetches the
URL, raises on a non-200 status or a non-image content type, and on success
records mime type, byte size, dimensions and body — after which control
falls through to the unconditional ValueError("Invalid image URL") raise at
the end of the IMAGE_URL branch (loadUrlTail).  Unknown locations raise
ValueError("Invalid image type"). -/
def ImageFile.load (env : Env) (f : ImageFile) :
    Except PyError (List Nat) × ImageFile :=
  let tp := f.pyType env
  let f1 := tp.2
  match tp.1 with
  | .IMAGE_LOCAL => (.ok (env.readFile f1._location), f1)
  | .IMAGE_URL =>
    if startsWithPy ("http") f1._location then
      let resp := env.httpGet f1._location
      if resp.status ≠ 200 then
        (.error (.valueError (("Failed to download image from ") ++ f1._location
           ++ (": ") ++ toString resp.status)), f1)
      else
        match resp.contentType with
        | some ct =>
          if startsWithPy ("image/") (String.mk (lowerL ct.data)) then
            ImageFile.loadUrlTail env
              { f1 with _mime_type := some ct,
                        _size := (resp.content.length : Int),
                        _dimensions := env.getDims resp.content,
                        _data := some resp.content }
          else (.error (.valueError ("Invalid image content type")), f1)
        | none => (.error (.valueError ("Invalid image content type")), f1)
    else ImageFile.loadUrlTail env f1
  | .UNKNOWN => (.error (.valueError ("Invalid image type")), f1)

/-- The body of the cached mime_type property of ImageFile past the truthy
_mime_type test: guess from the filename for local files, take the part
before the first semicolon for inline data URLs, raise for other URLs, and
answer the N/A placeholder for unknown locations; computed values are
cached. -/
def ImageFile.mimeTypeRest (env : Env) (f : ImageFile) :
    Except PyError (Option String) × ImageFile :=
  let tp := f.pyType env
  let f1 := tp.2
  match tp.1 with
  | .IMAGE_LOCAL =>
    let v := env.mimeGuess f1._location
    (.ok v, { f1 with mimeCache := some v })
  | .IMAGE_URL =>
    if startsWithPy ("data:image/") f1._location then
      let v := some (String.mk (splitOnceL ';' f1._location.data).1)
      (.ok v, { f1 with mimeCache := some v })
    else (.error (.valueError ("Invalid image URL")), f1)
  | .UNKNOWN =>
    (.ok (some ("N/A")), { f1 with mimeCache := some (some ("N/A")) })

/-- The cached mime_type property of ImageFile: a cached value is returned
as is; a truthy (non-None, non-empty) _mime_type constructor argument is
returned and cached; otherwise the type-directed computation runs. -/
def ImageFile.mimeTypeProp (env : Env) (f : ImageFile) :
    Except PyError (Option String) × ImageFile :=
  match f.mimeCache with
  | some v => (.ok v, f)
  | none =>
    match f._mime_type with
    | some m =>
      if m ≠ "" then (.ok (some m), { f with mimeCache := some (some m) })
      else ImageFile.mimeTypeRest env f
    | none => ImageFile.mimeTypeRest env f

/-- ImageFile.get_url from image_file.py: only defined for local images —
encode the file (optionally resized through a temporary copy) to base64 and
build the data URL from the mime_type property; every non-local image
raises ValueError("Invalid image type") whatever the resize, max_width,
max_height and quality arguments are. -/
def ImageFile.get_url (env : Env) (f : ImageFile) (resize : Bool)
    (max_width max_height quality : Option Nat) :
    Except PyError String × ImageFile :=
  let tp := f.pyType env
  let f1 := tp.2
  match tp.1 with
  | .IMAGE_LOCAL =>
    let b64 :=
      if resize then env.encodeResized f1._location max_width max_height quality
      else env.encodeImage f1._location
    match ImageFile.mimeTypeProp env f1 with
    | (.error e, f2) => (.error e, f2)
    | (.ok v, f2) =>
      (.ok (("data:") ++ mimeToStr v ++ (";base64,") ++ b64), f2)
  | _ => (.error (.valueError ("Invalid image type")), f1)

/-- BaseEngine.normalize_linesep from base_engine.py: when the text is
truthy (non-empty) and os.linesep differs from the newline character, every
newline in the text is replaced by the separator; otherwise the text is
returned unchanged.  The host separator is an explicit parameter. -/
def normalize_linesep (linesep : String) (text : String) : String :=
  if text ≠ "" ∧ linesep ≠ "\n" then
    String.mk (pyReplaceChar '\n' linesep.data text.data)
  else text

/-- The loop of BaseEngine.get_messages: walk the conversation blocks in
order, skip blocks without a response, and extend the accumulator with the
rendered request and rendered response of each answered block. -/
def baseGo {R : Type} (handle : Message → R) :
    List MessageBlock → List R → List R
  | [], acc => acc
  | b :: rest, acc =>
    match b.response with
    | none => baseGo handle rest acc
    | some r => baseGo handle rest (acc ++ [handle b.request, handle r])

/-- BaseEngine.get_messages from base_engine.py, parametric in the abstract
handle_message of the concrete engine: the rendered system message when one
is given, then the loop over the conversation, then the rendered request of
the new block. -/
def baseGetMessages {R : Type} (handle : Message → R) (new_block : MessageBlock)
    (conversation : Conversation) (system_message : Option Message) : List R :=
  let ms : List R :=
    match system_message with
    | some m => [handle m]
    | none => []
  baseGo handle conversation.messages ms ++ [handle new_block.request]

/-- The two rendered messages an answered block contributes (request then
response); an unanswered block contributes nothing. -/
def renderedPair {R : Type} (handle : Message → R) (b : MessageBlock) : List R :=
  match b.response with
  | some r => [handle b.request, handle r]
  | none => []

/-- The spec's wording of render_history (spec section 4.2): the rendered
system message when present, then request/response for every historical
block with a populated response in conversation order, then the pending
block's rendered request. -/
def renderHistorySpec {R : Type} (handle : Message → R) (new_block : MessageBlock)
    (conversation : Conversation) (system_message : Option Message) : List R :=
  (match system_message with
   | some m => [handle m]
   | none => [])
  ++ (conversation.messages.filter fun b => b.response.isSome).flatMap
       (renderedPair handle)
  ++ [handle new_block.request]

/-- The number of blocks of a conversation with a populated response. -/
def answeredCount (conversation : Conversation) : Nat :=
  (conversation.messages.filter fun b => b.response.isSome).length

/-- BaseEngine.get_transcription from base_engine.py: unconditionally raises
NotImplementedError — the capability-gap error the spec names
UnsupportedCapabilityError — whatever the arguments. -/
def baseGetTranscription (_args : List PyObj) : Except PyError String :=
  .error (.notImplementedError ("Transcription not implemented for this engine"))

/-- AnthropicEngine does not override get_transcription; calls fall through
to BaseEngine.get_transcription. -/
def anthropicGetTranscription (args : List PyObj) : Except PyError String :=
  baseGetTranscription args

/-- OllamaEngine does not override get_transcription; calls fall through to
BaseEngine.get_transcription. -/
def ollamaGetTranscription (args : List PyObj) : Except PyError String :=
  baseGetTranscription args

/-- One element of the content list of an Anthropic-format message: a text
part, or a base64 image part with its media type and payload. -/
inductive AContentPart where
  | text (t : String)
  | image (mediaType data : String)
deriving DecidableEq

/-- The dict AnthropicEngine.handle_message builds: a role string and a list
of content parts. -/
structure AMsg where
  role : String
  content : List AContentPart
deriving DecidableEq

/-- The item loop of AnthropicEngine.handle_message for list content: string
items become text parts; ImageFile items are embedded as base64 when local
— by operator precedence the condition is local or (URL and data prefix),
and the URL-and-data case reaches get_url which raises for non-local files
— and any other image or item raises ValueError.  The data URL returned by
get_url is taken apart with split(";", 1), split(":", 1)[1] and
split(",", 1)[1]; a missing separator raises at the tuple unpacking or the
index, as in Python. -/
def anthropicHandleItems (env : Env) : List PyObj → Except PyError (List AContentPart)
  | [] => .ok []
  | .str s :: rest => do
    let r ← anthropicHandleItems env rest
    .ok (.text s :: r)
  | .imageFile f :: rest =>
    let tp := f.pyType env
    let f1 := tp.2
    if tp.1 = ImageFileTypes.IMAGE_LOCAL
        ∨ (tp.1 = ImageFileTypes.IMAGE_URL
           ∧ startsWithPy ("data:image/") f1._location) then
      match (ImageFile.get_url env f1 false none none none).1 with
      | .error e => .error e
      | .ok url =>
        let p1 := splitOnceL ';' url.data
        match p1.2 with
        | none => .error (.valueError ("not enough values to unpack (expected 2, got 1)"))
        | some dataRaw =>
          match (splitOnceL ':' p1.1).2 with
          | none => .error .indexError
          | some mediaType =>
            match (splitOnceL ',' dataRaw).2 with
            | none => .error .indexError
            | some payload => do
              let r ← anthropicHandleItems env rest
              .ok (.image (String.mk mediaType) (String.mk payload) :: r)
    else .error (.valueError ("Unsupported image type"))
  | _ :: _ => .error (.valueError ("Unsupported content type"))

/-- AnthropicEngine.handle_message: list content is rendered item by item,
string content becomes a single text part, and any other content shape
raises ValueError. -/
def anthropicHandleMessage (env : Env) (m : Message) : Except PyError AMsg :=
  match m.content with
  | .pyList items => do
    let parts ← anthropicHandleItems env items
    .ok ⟨m.role.value, parts⟩
  | .str s => .ok ⟨m.role.value, [.text s]⟩
  | _ => .error (.valueError ("Unsupported content message type"))

/-- The loop of AnthropicEngine.get_messages: like the base loop but with
the fallible Anthropic renderer, the first failure aborting the call. -/
def anthropicGoMessages (env : Env) :
    List MessageBlock → List AMsg → Except PyError (List AMsg)
  | [], acc => .ok acc
  | b :: rest, acc =>
    match b.response with
    | none => anthropicGoMessages env rest acc
    | some r =>
      match anthropicHandleMessage env b.request with
      | .error e => .error e
      | .ok m1 =>
        match anthropicHandleMessage env r with
        | .error e => .error e
        | .ok m2 => anthropicGoMessages env rest (acc ++ [m1, m2])

/-- AnthropicEngine.get_messages from anthropic_engine.py: no system-message
parameter (Anthropic receives the system prompt as a separate request
field); answered blocks in order, then the new block's request. -/
def anthropicGetMessages (env : Env) (new_block : MessageBlock)
    (conversation : Conversation) : Except PyError (List AMsg) :=
  match anthropicGoMessages env conversation.messages [] with
  | .error e => .error e
  | .ok hist =>
    match anthropicHandleMessage env new_block.request with
    | .error e => .error e
    | .ok m => .ok (hist ++ [m])

/-- The contribution of one block to the spec-shaped Anthropic history: a
block with a populated response contributes its rendered request then its
rendered response (the first rendering failure propagating); a block
lacking a response contributes nothing. -/
def anthropicRenderedPair (env : Env) (b : MessageBlock) :
    Except PyError (List AMsg) :=
  match b.response with
  | none => .ok []
  | some r =>
    match anthropicHandleMessage env b.request with
    | .error e => .error e
    | .ok m1 =>
      match anthropicHandleMessage env r with
      | .error e => .error e
      | .ok m2 => .ok [m1, m2]

/-- The per-block contributions of a conversation in order, the first
rendering failure propagating. -/
def anthropicMapPairs (env : Env) : List MessageBlock → Except PyError (List (List AMsg))
  | [] => .ok []
  | b :: rest =>
    match anthropicRenderedPair env b with
    | .error e => .error e
    | .ok p =>
      match anthropicMapPairs env rest with
      | .error e => .error e
      | .ok ps => .ok (p :: ps)

/-- The spec's wording of the Anthropic render_history (spec section 4.2,
with no inline system message, which this vendor takes as a side channel):
for each block of the conversation in order, its rendered request then its
rendered response when the response is populated and nothing otherwise,
followed by the pending block's rendered request; the first rendering
failure propagates. -/
def anthropicRenderHistorySpec (env : Env) (new_block : MessageBlock)
    (conversation : Conversation) : Except PyError (List AMsg) :=
  match anthropicMapPairs env conversation.messages with
  | .error e => .error e
  | .ok pairs =>
    match anthropicHandleMessage env new_block.request with
    | .error e => .error e
    | .ok last => .ok (pairs.flatMap id ++ [last])

/-- One block of the content list of a non-streamed Anthropic response; the
source reads response.content[0].text. -/
structure AnthropicTextBlock where
  text : String
deriving DecidableEq

/-- The non-streamed Anthropic response as consumed by the source: its
content block list. -/
structure AnthropicResponse where
  content : List AnthropicTextBlock
deriving DecidableEq

/-- AnthropicEngine.completion_response_without_stream: set the block's
response to an assistant Message whose content is the first content block's
text with line separators normalized, and return the block; an empty
content list raises IndexError at content[0]. -/
def anthropicFinalize (linesep : String) (response : AnthropicResponse)
    (new_block : MessageBlock) : Except PyError MessageBlock :=
  match response.content with
  | [] => .error .indexError
  | blk :: _ =>
    .ok { new_block with
          response := some ⟨.assistant, .str (normalize_linesep linesep blk.text)⟩ }

/-- The message field of an Ollama chat response dict. -/
structure OllamaMessageField where
  content : Option String
deriving DecidableEq

/-- The Ollama chat response dict as consumed by the source: an optional
message field with an optional content entry. -/
structure OllamaResponse where
  message : Option OllamaMessageField
deriving DecidableEq

/-- response.get('message', {}).get('content', '') from ollama_engine.py. -/
def ollamaExtractContent (response : OllamaResponse) : String :=
  match response.message with
  | none => ""
  | some m => m.content.getD ""

/-- OllamaEngine.completion_response_without_stream: set the block's
response to an assistant Message whose content is the extracted reply text
with line separators normalized, and return the block. -/
def ollamaFinalize (linesep : String) (response : OllamaResponse)
    (new_block : MessageBlock) : MessageBlock :=
  { new_block with
    response := some ⟨.assistant, .str (normalize_linesep linesep (ollamaExtractContent response))⟩ }

/-- Modelled from the spec: the account collaborator (basilisk/account.py is
not among the analysed sources).  Section 6: an opaque API key and, for
self-hosted providers, a base URL. -/
structure Account where
  api_key : String
  base_url : Option String
deriving DecidableEq

/-- The vendor client the Anthropic SDK constructor returns, recorded with
the api_key it was built from. -/
structure AnthropicClient where
  apiKey : String
deriving DecidableEq

/-- The vendor client the Ollama SDK constructor returns (no arguments). -/
structure OllamaClient where
deriving DecidableEq

/-- The observable state of an AnthropicEngine instance: the stored account,
the cached_property slot for the client, and a count of vendor-client
constructor invocations. -/
structure AnthropicEngineState where
  account : Account
  clientCache : Option AnthropicClient
  clientConstructions : Nat
deriving DecidableEq

/-- AnthropicEngine.__init__: only stores the account (via the base
constructor); no client is built. -/
def anthropicEngineInit (account : Account) : AnthropicEngineState :=
  { account := account, clientCache := none, clientConstructions := 0 }

/-- The cached_property client of AnthropicEngine: a cached client is
returned as is; otherwise Anthropic(api_key=...) runs once and the result
is stored in the cache. -/
def anthropicClientAccess (s : AnthropicEngineState) :
    AnthropicClient × AnthropicEngineState :=
  match s.clientCache with
  | some c => (c, s)
  | none =>
    let c : AnthropicClient := ⟨s.account.api_key⟩
    (c, { s with clientCache := some c,
                 clientConstructions := s.clientConstructions + 1 })

/-- The observable state of an OllamaEngine instance. -/
structure OllamaEngineState where
  account : Account
  clientCache : Option OllamaClient
  clientConstructions : Nat
deriving DecidableEq

/-- OllamaEngine.__init__ from ollama_engine.py: after storing the account
it runs self.client = AsyncClient(), eagerly constructing the vendor client
during construction and storing it in the instance attribute that shadows
the cached_property of the same name. -/
def ollamaEngineInit (account : Account) : OllamaEngineState :=
  { account := account, clientCache := some ⟨⟩, clientConstructions := 1 }

theorem pyReplaceChar_not_mem (pat : Char) (rep : List Char) (h : pat ∉ rep)
    (l : List Char) : pat ∉ pyReplaceChar pat rep l := by
  induction l with
  | nil => simp [pyReplaceChar]
  | cons c rest ih =>
    intro hmem
    simp only [pyReplaceChar, List.flatMap_cons, List.mem_append] at hmem
    cases hmem with
    | inl h1 =>
      by_cases hc : c = pat
      · rw [if_pos hc] at h1
        exact h h1
      · rw [if_neg hc] at h1
        simp at h1
        exact hc h1.symm
    | inr h2 =>
      exact ih h2

/-- C4 (amended): when the host separator equals the newline the text is
returned unchanged; when it differs, the result is the text with every
newline character substituted by the separator — so a newline can remain in
the output only as part of an inserted separator (as with CRLF), and none
remains whenever the separator itself contains no newline. -/
theorem c4_normalize_linesep (linesep text : String) :
    (linesep = "\n" → normalize_linesep linesep text = text)
    ∧ (linesep ≠ "\n" →
        normalize_linesep linesep text
          = String.mk (pyReplaceChar '\n' linesep.data text.data))
    ∧ ('\n' ∉ linesep.data → '\n' ∉ (normalize_linesep linesep text).data) := by
  refine ⟨?_, ?_, ?_⟩
  · intro h
    simp [normalize_linesep, h]
  · intro h
    by_cases ht : text = ""
    · subst ht
      simp [normalize_linesep, pyReplaceChar]
    · simp [normalize_linesep, ht, h]
  · intro h
    have hsep : linesep ≠ "\n" := by
      intro he
      subst he
      simp at h
    by_cases ht : text = ""
    · subst ht
      simp [normalize_linesep]
    · simp only [normalize_linesep, if_pos (And.intro ht hsep)]
      exact pyReplaceChar_not_mem '\n' linesep.data h text.data

/-- C4 counterexample: with the CRLF host separator (the canonical case of
a separator different from the newline) the newline character does remain
in the normalized output, inside each inserted separator. -/
theorem c4_counterexample :
    ("\r\n" : String) ≠ "\n"
    ∧ '\n' ∈ (normalize_linesep "\r\n" "a\nb").data := by
  constructor
  · decide
  · decide

theorem c4_witness :
    normalize_linesep "\r" "a\nb"
      = String.mk (pyReplaceChar '\n' ("\r").data ("a\nb").data)
    ∧ '\n' ∉ (normalize_linesep "\r" "a\nb").data :=
  ⟨(c4_normalize_linesep "\r" "a\nb").2.1 (by decide),
   (c4_normalize_linesep "\r" "a\nb").2.2 (by decide)⟩

/-- C7: neither AnthropicEngine nor OllamaEngine overrides transcription, so
both raise the NotImplementedError capability-gap error (the spec's
UnsupportedCapabilityError) on every call, never the generic ValueError
used for validation failures. -/
theorem c7_transcription_unsupported (args : List PyObj) :
    anthropicGetTranscription args
      = .error (.notImplementedError ("Transcription not implemented for this engine"))
    ∧ ollamaGetTranscription args
      = .error (.notImplementedError ("Transcription not implemented for this engine"))
    ∧ (∀ m, anthropicGetTranscription args ≠ .error (.valueError m))
    ∧ (∀ m, ollamaGetTranscription args ≠ .error (.valueError m)) := by
  refine ⟨rfl, rfl, ?_, ?_⟩ <;>
    · intro m h
      simp [anthropicGetTranscription, ollamaGetTranscription,
            baseGetTranscription] at h

/-- C8: AnthropicEngine builds no client at construction, builds it exactly
once on first access and returns the same cached instance afterwards; but
OllamaEngine.__init__ constructs the vendor client during construction, so
the claim fails for that adapter. -/
theorem c8_client_laziness (account : Account) :
    (anthropicEngineInit account).clientConstructions = 0
    ∧ (anthropicClientAccess (anthropicEngineInit account)).2.clientConstructions = 1
    ∧ (anthropicClientAccess (anthropicClientAccess (anthropicEngineInit account)).2).1
        = (anthropicClientAccess (anthropicEngineInit account)).1
    ∧ (anthropicClientAccess (anthropicClientAccess (anthropicEngineInit account)).2).2
        = (anthropicClientAccess (anthropicEngineInit account)).2
    ∧ (ollamaEngineInit account).clientConstructions = 1 :=
  ⟨rfl, rfl, rfl, rfl, rfl⟩

/-- C9 counterexample: a Message is constructed with an integer as content —
a shape that is neither a string nor a sequence of content parts — because
the Any member of the content union accepts every value. -/
theorem c9_counterexample :
    mkMessage MessageRoleEnum.user (PyObj.pyInt 42)
      = some ⟨MessageRoleEnum.user, PyObj.pyInt 42⟩ := rfl

/-- C9 (amended): Message construction accepts content of every shape — the
annotation list[TextMessageContent | ImageUrlMessageContent] | str | Any
ends in Any, so validation never rejects a value. -/
theorem c9_content_any_accepted (role : MessageRoleEnum) (v : PyObj) :
    mkMessage role v = some ⟨role, v⟩ := by
  simp [mkMessage, contentUnionAccepts]

/-- C10: the ImageFile constructor raises TypeError on every non-string
location and builds nothing; on any string location (the empty string
included) it succeeds with the defaults name/description/mime None, size
-1, dimensions None, and performs no classification and caches nothing. -/
theorem c10_imagefile_constructor :
    (∀ (s : String) (name desc : Option String) (size : Int)
        (dims : Option (Nat × Nat)) (mime : Option String),
      mkImageFile (.str s) name desc size dims mime
        = .ok { _location := s, _name := name, _description := desc,
                _size := size, _dimensions := dims, _mime_type := mime,
                _data := none, typeCache := none, mimeCache := none })
    ∧ (∀ s : String,
        ImageFile.ofLocationDefaults (.str s)
          = .ok { _location := s, _name := none, _description := none,
                  _size := -1, _dimensions := none, _mime_type := none,
                  _data := none, typeCache := none, mimeCache := none })
    ∧ (∀ (loc : PyObj) (name desc : Option String) (size : Int)
        (dims : Option (Nat × Nat)) (mime : Option String),
        isStrObj loc = false →
        mkImageFile loc name desc size dims mime
          = .error (.typeError ("path must be a string"))) := by
  refine ⟨fun s name desc size dims mime => rfl, fun s => rfl, ?_⟩
  intro loc name desc size dims mime h
  cases loc with
  | str s => simp [isStrObj] at h
  | textPart t => rfl
  | imageUrlPart u => rfl
  | imageFile f => rfl
  | pyList items => rfl
  | pyInt n => rfl
  | noneVal => rfl

theorem c10_witness :
    ImageFile.ofLocationDefaults (.str "")
      = .ok { _location := "", _name := none, _description := none,
              _size := -1, _dimensions := none, _mime_type := none,
              _data := none, typeCache := none, mimeCache := none }
    ∧ mkImageFile (.pyInt 7) none none (-1) none none
      = .error (.typeError ("path must be a string")) :=
  ⟨c10_imagefile_constructor.2.1 "",
   c10_imagefile_constructor.2.2 (.pyInt 7) none none (-1) none none rfl⟩

/-- A world in which no path exists and fetching any URL answers 200 with an
image content type and a four-byte PNG-tagged body. -/
def envC2 : Env :=
  { pathExists := fun _ => false, readFile := fun _ => [],
    httpGet := fun _ => { status := 200, contentType := some ("image/png"),
                          content := [137, 80, 78, 71] },
    getDims := fun _ => some (2, 3), encodeImage := fun _ => "",
    encodeResized := fun _ _ _ _ => "", mimeGuess := fun _ => none }

/-- A freshly constructed ImageFile on a plain HTTP image URL. -/
def fC2 : ImageFile :=
  { _location := "http://example.com/cat.png", _name := none,
    _description := none, _size := -1, _dimensions := none,
    _mime_type := none, _data := none, typeCache := none, mimeCache := none }

/-- C2: on a successful fetch (status 200, image content type) of an HTTP
image URL, load does record the mime type, the byte size, the dimensions
and the body on the instance — but then raises
ValueError("Invalid image URL") instead of returning the bytes, because the
http branch of the IMAGE_URL case has no return statement and control falls
through to the unconditional raise.  The claim's "returns the fetched image
bytes without raising" is therefore false on the code. -/
theorem c2_remote_load_bug :
    (ImageFile.load envC2 fC2).1 = .error (.valueError ("Invalid image URL"))
    ∧ (ImageFile.load envC2 fC2).2._data = some [137, 80, 78, 71]
    ∧ (ImageFile.load envC2 fC2).2._mime_type = some ("image/png")
    ∧ (ImageFile.load envC2 fC2).2._size = 4
    ∧ (ImageFile.load envC2 fC2).2._dimensions = some (2, 3) :=
  ⟨rfl, rfl, rfl, rfl, rfl⟩

/-- C5: when the fetch of an http(s) location answers a non-success status,
load raises the download-failure ValueError (the spec's FetchError) and
leaves size, dimensions, mime type and cached bytes exactly as they were. -/
theorem c5_fetch_error_unpopulated (env : Env) (f : ImageFile)
    (h1 : (f.pyType env).1 = ImageFileTypes.IMAGE_URL)
    (h2 : startsWithPy ("http") f._location = true)
    (h3 : (env.httpGet f._location).status ≠ 200) :
    (ImageFile.load env f).1
      = .error (.valueError (("Failed to download image from ") ++ f._location
          ++ (": ") ++ toString (env.httpGet f._location).status))
    ∧ (ImageFile.load env f).2._size = f._size
    ∧ (ImageFile.load env f).2._dimensions = f._dimensions
    ∧ (ImageFile.load env f).2._mime_type = f._mime_type
    ∧ (ImageFile.load env f).2._data = f._data := by
  obtain ⟨loc, nm, ds, sz, dm, mt, dt, tc, mc⟩ := f
  simp only [ImageFile.pyType] at h1
  simp only [ImageFile.load, ImageFile.pyType]
  cases tc with
  | some t =>
    simp only at h1
    subst h1
    simp only [startsWithPy] at h2 ⊢
    simp [h2, h3]
  | none =>
    simp only at h1 ⊢
    by_cases hpe : env.pathExists loc
    · simp [hpe] at h1
    · by_cases hrm : reMatchUrlPattern loc
      · simp only [hpe, hrm, if_true, if_false, ite_true, ite_false] at h1 ⊢
        simp [h2, h3]
      · simp [hpe, hrm] at h1

/-- A world in which no path exists and every fetch answers 404. -/
def envC5 : Env :=
  { pathExists := fun _ => false, readFile := fun _ => [],
    httpGet := fun _ => { status := 404, contentType := none, content := [] },
    getDims := fun _ => none, encodeImage := fun _ => "",
    encodeResized := fun _ _ _ _ => "", mimeGuess := fun _ => none }

/-- A freshly constructed ImageFile on an HTTP URL whose fetch 404s. -/
def fC5 : ImageFile :=
  { _location := "http://example.com/a.png", _name := none,
    _description := none, _size := -1, _dimensions := none,
    _mime_type := none, _data := none, typeCache := none, mimeCache := none }

theorem c5_witness :
    (ImageFile.load envC5 fC5).1
      = .error (.valueError (("Failed to download image from ") ++ fC5._location
          ++ (": ") ++ toString (envC5.httpGet fC5._location).status))
    ∧ (ImageFile.load envC5 fC5).2._size = fC5._size
    ∧ (ImageFile.load envC5 fC5).2._dimensions = fC5._dimensions
    ∧ (ImageFile.load envC5 fC5).2._mime_type = fC5._mime_type
    ∧ (ImageFile.load envC5 fC5).2._data = fC5._data :=
  c5_fetch_error_unpopulated envC5 fC5 (by decide) (by decide) (by decide)

/-- C6: get_url raises ValueError("Invalid image type") — the spec's
UnsupportedOperationError — for every image whose classification is not
local, whatever the resize, max_width, max_height and quality arguments. -/
theorem c6_get_url_nonlocal (env : Env) (f : ImageFile) (resize : Bool)
    (mw mh q : Option Nat)
    (h : (f.pyType env).1 ≠ ImageFileTypes.IMAGE_LOCAL) :
    (ImageFile.get_url env f resize mw mh q).1
      = .error (.valueError ("Invalid image type")) := by
  rcases hp : f.pyType env with ⟨t, f1⟩
  cases t with
  | IMAGE_LOCAL =>
    rw [hp] at h
    exact absurd rfl h
  | IMAGE_URL => simp [ImageFile.get_url, hp]
  | UNKNOWN => simp [ImageFile.get_url, hp]

/-- A world in which no path exists. -/
def envC6 : Env :=
  { pathExists := fun _ => false, readFile := fun _ => [],
    httpGet := fun _ => { status := 200, contentType := none, content := [] },
    getDims := fun _ => none, encodeImage := fun _ => "",
    encodeResized := fun _ _ _ _ => "", mimeGuess := fun _ => none }

/-- An ImageFile on an inline data URL: no local file, matches URL_PATTERN,
hence classified remote. -/
def fC6 : ImageFile :=
  { _location := "data:image/png;base64,iVBORw0KGgo", _name := none,
    _description := none, _size := -1, _dimensions := none,
    _mime_type := none, _data := none, typeCache := none, mimeCache := none }

theorem c6_witness :
    (fC6.pyType envC6).1 = ImageFileTypes.IMAGE_URL
    ∧ (ImageFile.get_url envC6 fC6 true (some 100) (some 100) (some 85)).1
        = .error (.valueError ("Invalid image type")) :=
  ⟨by decide,
   c6_get_url_nonlocal envC6 fC6 true (some 100) (some 100) (some 85) (by decide)⟩

/-- C3: for both engines, finalizing a non-streamed response yields the
block with its response field set to an assistant Message carrying the
extracted reply text with line separators normalized, and with every other
field — request, model, generation parameters, stream flag, modalities,
audio and timestamps — unchanged.  For Anthropic the extracted text is the
first content block's text (the vendor response is assumed to carry at
least one content block, as the API guarantees); for Ollama it is the
nested message content with empty-dict defaults. -/
theorem c3_finalize_response (linesep : String) (b : MessageBlock)
    (resp : AnthropicResponse) (blk : AnthropicTextBlock)
    (rest : List AnthropicTextBlock) (oresp : OllamaResponse)
    (h : resp.content = blk :: rest) :
    (∃ b1, anthropicFinalize linesep resp b = .ok b1
      ∧ b1.response = some ⟨.assistant, .str (normalize_linesep linesep blk.text)⟩
      ∧ b1.request = b.request ∧ b1.model = b.model
      ∧ b1.temperature = b.temperature ∧ b1.max_tokens = b.max_tokens
      ∧ b1.top_p = b.top_p ∧ b1.stream = b.stream
      ∧ b1.modalities = b.modalities ∧ b1.audio = b.audio
      ∧ b1.created_at = b.created_at ∧ b1.updated_at = b.updated_at)
    ∧ ((ollamaFinalize linesep oresp b).response
        = some ⟨.assistant, .str (normalize_linesep linesep (ollamaExtractContent oresp))⟩
      ∧ (ollamaFinalize linesep oresp b).request = b.request
      ∧ (ollamaFinalize linesep oresp b).model = b.model
      ∧ (ollamaFinalize linesep oresp b).temperature = b.temperature
      ∧ (ollamaFinalize linesep oresp b).max_tokens = b.max_tokens
      ∧ (ollamaFinalize linesep oresp b).top_p = b.top_p
      ∧ (ollamaFinalize linesep oresp b).stream = b.stream
      ∧ (ollamaFinalize linesep oresp b).modalities = b.modalities
      ∧ (ollamaFinalize linesep oresp b).audio = b.audio
      ∧ (ollamaFinalize linesep oresp b).created_at = b.created_at
      ∧ (ollamaFinalize linesep oresp b).updated_at = b.updated_at) := by
  constructor
  · refine ⟨{ b with response := some ⟨.assistant,
        .str (normalize_linesep linesep blk.text)⟩ }, ?_,
      rfl, rfl, rfl, rfl, rfl, rfl, rfl, rfl, rfl, rfl, rfl⟩
    simp [anthropicFinalize, h]
  · exact ⟨rfl, rfl, rfl, rfl, rfl, rfl, rfl, rfl, rfl, rfl, rfl⟩

/-- A concrete model descriptor for the witnesses. -/
def modelW : ProviderAIModel :=
  { id := "claude-3-haiku-20240307", name := some ("Claude 3 Haiku"),
    description := none, context_window := 200000, max_output_tokens := 4096,
    vision := true, max_temperature := 2 }

/-- A pending block whose request asks a plain text question. -/
def blockW : MessageBlock :=
  { request := ⟨.user, .str "3+3?"⟩, response := none, model := modelW,
    temperature := 1, max_tokens := 4096, top_p := 1, modalities := none,
    audio := none, stream := false, created_at := 0, updated_at := 0 }

/-- A one-content-block Anthropic response carrying the reply text. -/
def respW : AnthropicResponse := ⟨[⟨"6"⟩]⟩

/-- An Ollama response dict carrying the reply text. -/
def orespW : OllamaResponse := ⟨some ⟨some ("6")⟩⟩

theorem c3_witness :
    ∃ b1, anthropicFinalize "\r\n" respW blockW = .ok b1
      ∧ b1.response = some ⟨.assistant, .str (normalize_linesep "\r\n" "6")⟩
      ∧ b1.request = blockW.request ∧ b1.model = blockW.model
      ∧ b1.temperature = blockW.temperature ∧ b1.max_tokens = blockW.max_tokens
      ∧ b1.top_p = blockW.top_p ∧ b1.stream = blockW.stream
      ∧ b1.modalities = blockW.modalities ∧ b1.audio = blockW.audio
      ∧ b1.created_at = blockW.created_at ∧ b1.updated_at = blockW.updated_at :=
  (c3_finalize_response "\r\n" blockW respW ⟨"6"⟩ [] orespW rfl).1

theorem baseGo_eq {R : Type} (handle : Message → R) (blocks : List MessageBlock) :
    ∀ acc : List R,
      baseGo handle blocks acc
        = acc ++ (blocks.filter fun b => b.response.isSome).flatMap
            (renderedPair handle) := by
  induction blocks with
  | nil => intro acc; simp [baseGo]
  | cons b rest ih =>
    intro acc
    cases hb : b.response with
    | none => simp [baseGo, hb, ih, renderedPair, List.filter_cons]
    | some r => simp [baseGo, hb, ih, renderedPair, List.filter_cons]

theorem flatMap_renderedPair_length {R : Type} (handle : Message → R)
    (l : List MessageBlock) (hall : ∀ b ∈ l, b.response.isSome = true) :
    (l.flatMap (renderedPair handle)).length = 2 * l.length := by
  induction l with
  | nil => simp
  | cons b rest ih =>
    have hb : b.response.isSome = true := hall b (by simp)
    obtain ⟨r, hr⟩ := Option.isSome_iff_exists.mp hb
    have ihr := ih fun x hx => hall x (by simp [hx])
    simp [renderedPair, hr, ihr]
    omega

theorem anthropicGo_length (env : Env) (blocks : List MessageBlock) :
    ∀ (acc out : List AMsg),
      anthropicGoMessages env blocks acc = .ok out →
      out.length
        = acc.length + 2 * (blocks.filter fun b => b.response.isSome).length := by
  induction blocks with
  | nil =>
    intro acc out h
    simp [anthropicGoMessages] at h
    simp [← h]
  | cons b rest ih =>
    intro acc out h
    cases hb : b.response with
    | none =>
      rw [anthropicGoMessages, hb] at h
      have := ih acc out h
      simp [List.filter_cons, hb, this]
    | some r =>
      simp only [anthropicGoMessages, hb] at h
      cases h1 : anthropicHandleMessage env b.request with
      | error e => simp [h1] at h
      | ok m1 =>
        simp only [h1] at h
        cases h2 : anthropicHandleMessage env r with
        | error e => simp [h2] at h
        | ok m2 =>
          simp only [h2] at h
          have := ih (acc ++ [m1, m2]) out h
          simp [List.filter_cons, hb] at this ⊢
          omega

theorem anthropicGo_spec (env : Env) (blocks : List MessageBlock) :
    ∀ acc : List AMsg,
      anthropicGoMessages env blocks acc
        = match anthropicMapPairs env blocks with
          | .error e => .error e
          | .ok pairs => .ok (acc ++ pairs.flatMap id) := by
  induction blocks with
  | nil => intro acc; simp [anthropicGoMessages, anthropicMapPairs]
  | cons b rest ih =>
    intro acc
    cases hb : b.response with
    | none =>
      simp only [anthropicGoMessages, anthropicMapPairs, anthropicRenderedPair, hb]
      rw [ih acc]
      cases hm : anthropicMapPairs env rest with
      | error e => simp
      | ok pairs => simp
    | some r =>
      simp only [anthropicGoMessages, anthropicMapPairs, anthropicRenderedPair, hb]
      cases h1 : anthropicHandleMessage env b.request with
      | error e => simp
      | ok m1 =>
        simp only
        cases h2 : anthropicHandleMessage env r with
        | error e => simp
        | ok m2 =>
          simp only
          rw [ih (acc ++ [m1, m2])]
          cases hm : anthropicMapPairs env rest with
          | error e => simp
          | ok pairs => simp

/-- C1: the shared get_messages, for an arbitrary renderer, equals the
spec-shaped history — optional rendered system message first, then request
and response of every answered block in conversation order (unanswered
blocks contributing nothing), then the pending block's rendered request —
so with no system message it has exactly 2N+1 elements for N answered
blocks, and a supplied system message is prepended as one extra leading
element.  The Anthropic override (which takes no system message) equals
the same spec-shaped rendering in its fallible setting — each answered
block contributing its rendered request then its rendered response in
conversation order, unanswered blocks nothing, the pending request last —
and therefore also yields exactly 2N+1 rendered messages whenever it
succeeds. -/
theorem c1_render_history :
    (∀ (R : Type) (handle : Message → R) (new_block : MessageBlock)
        (conversation : Conversation),
      (∀ system_message,
        baseGetMessages handle new_block conversation system_message
          = renderHistorySpec handle new_block conversation system_message)
      ∧ (baseGetMessages handle new_block conversation none).length
          = 2 * answeredCount conversation + 1
      ∧ (∀ sm, baseGetMessages handle new_block conversation (some sm)
          = handle sm :: baseGetMessages handle new_block conversation none))
    ∧ (∀ (env : Env) (new_block : MessageBlock) (conversation : Conversation),
        anthropicGetMessages env new_block conversation
          = anthropicRenderHistorySpec env new_block conversation
        ∧ (∀ msgs : List AMsg,
            anthropicGetMessages env new_block conversation = .ok msgs →
            msgs.length = 2 * answeredCount conversation + 1)) := by
  constructor
  · intro R handle nb conv
    have hspec : ∀ sys, baseGetMessages handle nb conv sys
        = renderHistorySpec handle nb conv sys := by
      intro sys
      cases sys with
      | none => simp [baseGetMessages, renderHistorySpec, baseGo_eq]
      | some sm => simp [baseGetMessages, renderHistorySpec, baseGo_eq]
    have hlen := flatMap_renderedPair_length handle
      (conv.messages.filter fun b => b.response.isSome)
      (fun x hx => (List.mem_filter.mp hx).2)
    refine ⟨hspec, ?_, ?_⟩
    · rw [hspec none]
      simp [renderHistorySpec, answeredCount, hlen]
    · intro sm
      rw [hspec (some sm), hspec none]
      simp [renderHistorySpec]
  · intro env nb conv
    constructor
    · simp only [anthropicGetMessages, anthropicRenderHistorySpec]
      rw [anthropicGo_spec env conv.messages []]
      cases hm : anthropicMapPairs env conv.messages with
      | error e => simp
      | ok pairs =>
        simp only
        cases hl : anthropicHandleMessage env nb.request with
        | error e => simp
        | ok m => simp
    · intro msgs h
      simp only [anthropicGetMessages] at h
      cases hg : anthropicGoMessages env conv.messages [] with
      | error e => simp [hg] at h
      | ok hist =>
        simp only [hg] at h
        cases hm : anthropicHandleMessage env nb.request with
        | error e => simp [hm] at h
        | ok m =>
          simp only [hm] at h
          simp at h
          have hl := anthropicGo_length env conv.messages [] hist hg
          simp only [List.length_nil, Nat.zero_add] at hl
          rw [← h, List.length_append, hl]
          simp [answeredCount]

/-- A world for the history witness (no image content is involved). -/
def envC1 : Env :=
  { pathExists := fun _ => false, readFile := fun _ => [],
    httpGet := fun _ => { status := 200, contentType := none, content := [] },
    getDims := fun _ => none, encodeImage := fun _ => "",
    encodeResized := fun _ _ _ _ => "", mimeGuess := fun _ => none }

/-- A pending block asking a new question. -/
def nbC1 : MessageBlock :=
  { request := ⟨.user, .str "3+3?"⟩, response := none, model := modelW,
    temperature := 1, max_tokens := 4096, top_p := 1, modalities := none,
    audio := none, stream := false, created_at := 0, updated_at := 0 }

/-- A conversation with one answered block and one unanswered block, the
latter of which must contribute nothing to the rendered history. -/
def convC1 : Conversation :=
  { system := none,
    messages :=
      [ { request := ⟨.user, .str "2+2?"⟩,
          response := some ⟨.assistant, .str "4"⟩,
          model := modelW, temperature := 1, max_tokens := 4096, top_p := 1,
          modalities := none, audio := none, stream := false,
          created_at := 0, updated_at := 0 },
        { request := ⟨.user, .str "ignored"⟩, response := none,
          model := modelW, temperature := 1, max_tokens := 4096, top_p := 1,
          modalities := none, audio := none, stream := false,
          created_at := 0, updated_at := 0 } ],
    title := none }

/-- The rendered history the Anthropic renderer produces for convC1/nbC1. -/
def msgsC1 : List AMsg :=
  [ ⟨"user", [.text "2+2?"]⟩, ⟨"assistant", [.text "4"]⟩,
    ⟨"user", [.text "3+3?"]⟩ ]

theorem c1_witness :
    anthropicGetMessages envC1 nbC1 convC1
      = anthropicRenderHistorySpec envC1 nbC1 convC1
    ∧ anthropicGetMessages envC1 nbC1 convC1 = .ok msgsC1
    ∧ msgsC1.length = 2 * answeredCount convC1 + 1 :=
  ⟨(c1_render_history.2 envC1 nbC1 convC1).1, rfl,
   (c1_render_history.2 envC1 nbC1 convC1).2 msgsC1 rfl⟩
